import Mathlib

/-!
Shallow embedding of the ISO 9141-2 protocol engine of the obdii-reader
repository (src/src/obd.c, src/src/usart.c, and the obd_info_t declaration
in the unnamed source part_001, lines 377-383).

The serial line is modelled as a stream of received bytes rx : Nat -> Nat
(the value returned by the n-th call to USART_Receive, reduced mod 256 as
the C function returns an unsigned char).  Transmitted bytes are collected
in an explicit trace.  Machine integers follow the AVR ABI of the target
(8-bit unsigned/signed char, 16-bit int and size_t, 16-bit unsigned short)
with explicit mod arithmetic.  Uninitialized local result buffers are
modelled by an explicit junk stream, since send_cmd writes the caller's
buffer only on its success path.
-/

/-- Protocol constant, src/src/obd.c line 6. -/
def CMD_LEN_OFFSET : Nat := 0x66

/-- Protocol constant, src/src/obd.c line 7. -/
def DESTINATION : Nat := 0x6A

/-- Protocol constant, src/src/obd.c line 8. -/
def SOURCE : Nat := 0xF1

/-- Protocol constant, src/src/obd.c line 9. -/
def DATA_LEN_OFFSET : Nat := 0x42

/-- send_byte (src/src/obd.c lines 11-21): transmit data, receive the echo
byte, return 0 if the echo equals the sent byte and -1 otherwise. -/
def send_byte (data echo : Nat) : Int :=
  if echo = data then 0 else -1

/-- Outcome of the transmission half of send_cmd: the bytes actually passed
to USART_Transmit, the next stream position (= number of receives consumed),
and whether the C code fell through the whole loop without returning -1. -/
structure TxResult where
  tx : List Nat
  pos : Nat
  ok : Bool

/-- The transmission phase of send_cmd (src/src/obd.c lines 33-61): each
frame byte is transmitted and its echo received; the C code tests
if (!send_byte(b)) and returns -1 from send_cmd when that test is true,
i.e. it aborts exactly when send_byte returns 0 (echo EQUAL to the byte
sent) and keeps transmitting when the echo differs. -/
def txPhase (rx : Nat → Nat) : List Nat → Nat → TxResult
  | [], p => ⟨[], p, true⟩
  | b :: rest, p =>
    if send_byte b (rx p % 256) = 0 then
      ⟨[b], p + 1, false⟩
    else
      let r := txPhase rx rest (p + 1)
      ⟨b :: r.tx, r.pos, r.ok⟩

/-- The bytes send_cmd passes to send_byte, in order (src/src/obd.c lines
33-61): length byte CMD_LEN_OFFSET + cmd_len, DESTINATION, SOURCE, the
command bytes, then the running additive checksum kept in an unsigned
char.  All values are reduced mod 256 where the C unsigned char type does. -/
def frameBytes (cmd : List Nat) : List Nat :=
  ((CMD_LEN_OFFSET + cmd.length) % 256) :: DESTINATION :: SOURCE ::
    (cmd.map (fun b => b % 256) ++
      [(CMD_LEN_OFFSET + cmd.length + DESTINATION + SOURCE +
        (cmd.map (fun b => b % 256)).sum) % 256])

/-- The unsigned char value data_len computed at src/src/obd.c line 65:
receive - DATA_LEN_OFFSET stored into an unsigned char. -/
def dataLenByte (rx : Nat → Nat) (p : Nat) : Nat :=
  (rx p % 256 + 256 - DATA_LEN_OFFSET) % 256

/-- Outcome of the response command-echo loop of send_cmd. -/
structure EchoResult where
  pos : Nat
  ok : Bool

/-- The response command-echo loop (src/src/obd.c lines 80-85): each
received byte must equal the corresponding command byte. -/
def cmdEchoCheck (rx : Nat → Nat) : List Nat → Nat → EchoResult
  | [], p => ⟨p, true⟩
  | c :: rest, p =>
    if rx p % 256 ≠ c % 256 then ⟨p + 1, false⟩
    else cmdEchoCheck rx rest (p + 1)

/-- The response phase of send_cmd (src/src/obd.c lines 63-93), entered at
stream position p.  Returns (number of receives consumed so far, result):
first byte gives data_len; the check data_len - cmd_len != result_len is
16-bit unsigned arithmetic (AVR int/size_t); then destination, source and
each command byte must be echoed back; then result_len result bytes are
read, and one trailing checksum byte is read and discarded. -/
def sendCmdRx (cmd : List Nat) (result_len : Nat) (rx : Nat → Nat) (p : Nat) :
    Nat × Option (List Nat) :=
  if (dataLenByte rx p + 65536 - cmd.length % 65536) % 65536 ≠ result_len % 65536 then
    (p + 1, none)
  else if rx (p + 1) % 256 ≠ DESTINATION then
    (p + 2, none)
  else if rx (p + 2) % 256 ≠ SOURCE then
    (p + 3, none)
  else
    let e := cmdEchoCheck rx cmd (p + 3)
    if e.ok then
      (e.pos + result_len + 1,
        some ((List.range result_len).map (fun i => rx (e.pos + i) % 256)))
    else
      (e.pos, none)

/-- Full observable behaviour of one send_cmd call: transmitted bytes,
number of USART_Receive calls, and the returned value (some buf models
return 0 with result_buf = buf; none models return -1, in which case
result_buf was never written). -/
structure SendCmdResult where
  tx : List Nat
  consumed : Nat
  result : Option (List Nat)

/-- send_cmd (src/src/obd.c lines 23-94). -/
def sendCmd (cmd : List Nat) (result_len : Nat) (rx : Nat → Nat) : SendCmdResult :=
  let t := txPhase rx (frameBytes cmd) 0
  if t.ok then
    let r := sendCmdRx cmd result_len rx t.pos
    ⟨t.tx, r.1, r.2⟩
  else
    ⟨t.tx, t.pos, none⟩

/-- obd_info_t (unnamed part_001 lines 377-383): s1pid00 is unsigned
char[4], load and speed unsigned char, temperature signed char (its Lean
field holds the mathematical value of that signed char, in [-128,127]),
rpm unsigned short. -/
structure obd_info_t where
  s1pid00 : List Nat
  load : Nat
  temperature : Int
  rpm : Nat
  speed : Nat

/-- Conversion of an int value to the stored value of a signed char
(AVR gcc: two's-complement wrap into [-128,127]). -/
def signedChar (v : Int) : Int :=
  (v + 128) % 256 - 128

/-- Conversion of an int value to a 16-bit AVR int (wrap into
[-32768,32767]), used where int arithmetic overflows. -/
def int16 (v : Int) : Int :=
  (v + 32768) % 65536 - 32768

/-- Conversion of an int value to an unsigned short (mod 2^16). -/
def ushort (v : Int) : Nat :=
  ((v % 65536 + 65536) % 65536).toNat

/-- Observable behaviour of one parameter getter: updated obd_info, return
value, transmitted bytes, receives consumed. -/
structure GetResult where
  info : obd_info_t
  ret : Int
  tx : List Nat
  consumed : Nat

/-- get_engine_load (src/src/obd.c lines 96-112).  The C code tests
if (!send_cmd(...)): when send_cmd returns 0 it sets load = 0 and returns
-1; when send_cmd returns -1 it falls through and stores
result[0] * 100 / 255 where result[0] is the uninitialized stack byte
junk 0 (send_cmd never wrote the buffer on its error return). -/
def get_engine_load (junk : Nat → Nat) (rx : Nat → Nat) (s : obd_info_t) : GetResult :=
  let r := sendCmd [0x01, 0x04] 1 rx
  match r.result with
  | some _ => ⟨{ s with load := 0 }, -1, r.tx, r.consumed⟩
  | none => ⟨{ s with load := ((junk 0 % 256) * 100 / 255) % 256 }, 0, r.tx, r.consumed⟩

/-- get_engine_coolant_temp (src/src/obd.c lines 114-130), with the same
inverted send_cmd test; the decode result[0] - 40 is an int stored into
the signed char field temperature. -/
def get_engine_coolant_temp (junk : Nat → Nat) (rx : Nat → Nat) (s : obd_info_t) : GetResult :=
  let r := sendCmd [0x01, 0x05] 1 rx
  match r.result with
  | some _ => ⟨{ s with temperature := 0 }, -1, r.tx, r.consumed⟩
  | none =>
      ⟨{ s with temperature := signedChar ((junk 0 % 256 : Int) - 40) }, 0, r.tx, r.consumed⟩

/-- get_engine_rpm (src/src/obd.c lines 132-148), same inverted test; the
decode (result[0] * 256 + result[1]) / 4 is 16-bit int arithmetic (which
wraps for result[0] >= 128) truncated toward zero, stored into the
unsigned short field rpm. -/
def get_engine_rpm (junk : Nat → Nat) (rx : Nat → Nat) (s : obd_info_t) : GetResult :=
  let r := sendCmd [0x01, 0x0C] 2 rx
  match r.result with
  | some _ => ⟨{ s with rpm := 0 }, -1, r.tx, r.consumed⟩
  | none =>
      ⟨{ s with rpm := ushort (Int.tdiv (int16 ((junk 0 % 256) * 256 + junk 1 % 256)) 4) },
        0, r.tx, r.consumed⟩

/-- get_vehicle_speed (src/src/obd.c lines 150-166), same inverted test. -/
def get_vehicle_speed (junk : Nat → Nat) (rx : Nat → Nat) (s : obd_info_t) : GetResult :=
  let r := sendCmd [0x01, 0x0D] 1 rx
  match r.result with
  | some _ => ⟨{ s with speed := 0 }, -1, r.tx, r.consumed⟩
  | none => ⟨{ s with speed := junk 0 % 256 }, 0, r.tx, r.consumed⟩

/-- get_service1_supported_pids (src/src/obd.c lines 220-231): send_cmd
writes obd_info->s1pid00 directly on its success path; the inverted test
then returns -1 on that path and 0 on the send_cmd error path. -/
def get_service1_supported_pids (rx : Nat → Nat) (s : obd_info_t) : GetResult :=
  let r := sendCmd [0x01, 0x00] 4 rx
  match r.result with
  | some buf => ⟨{ s with s1pid00 := buf }, -1, r.tx, r.consumed⟩
  | none => ⟨s, 0, r.tx, r.consumed⟩

/-- Observable behaviour of one get_obd_data call. -/
structure PollResult where
  info : obd_info_t
  ret : Int
  tx : List Nat
  consumed : Nat

/-- get_obd_data (src/src/obd.c lines 233-244): unconditionally runs the
four parameter getters in order (each separated only by a wait_avr(65)
delay), drops each getter's return value, and returns 0.  There is no
clock input: the function reads no timer and performs no session-age or
keep-alive check of any kind. -/
def get_obd_data (junk1 junk2 junk3 junk4 : Nat → Nat) (rx : Nat → Nat)
    (s : obd_info_t) : PollResult :=
  let r1 := get_engine_load junk1 rx s
  let rx2 : Nat → Nat := fun i => rx (r1.consumed + i)
  let r2 := get_engine_coolant_temp junk2 rx2 r1.info
  let rx3 : Nat → Nat := fun i => rx2 (r2.consumed + i)
  let r3 := get_engine_rpm junk3 rx3 r2.info
  let rx4 : Nat → Nat := fun i => rx3 (r3.consumed + i)
  let r4 := get_vehicle_speed junk4 rx4 r3.info
  ⟨r4.info, 0, r1.tx ++ (r2.tx ++ (r3.tx ++ r4.tx)),
    r1.consumed + r2.consumed + r3.consumed + r4.consumed⟩

/-- Observable behaviour of obd_init (src/src/obd.c lines 168-218): the
(PD1 level, hold duration in ms) trace of the 5-baud wake byte, then the
bytes exchanged once the USART runs at 10.4 kbit/s. -/
structure ObdInitResult where
  wake : List (Bool × Nat)
  response : Nat
  keyByte1 : Nat
  keyByte2 : Nat
  ackSent : Nat
  ack2 : Nat
  consumed : Nat

/-- obd_init (src/src/obd.c lines 168-218).  The wake trace transcribes
lines 177-188 verbatim (false = line low, true = line high; the line idles
high before and after).  After USART_Init(47) the code receives the sync
byte into the variable response and proceeds unconditionally: no
comparison with 0x55 (or anything else) is performed, the two key bytes
are always received, the complement of key byte 2 is always transmitted,
and two final acknowledgment bytes are received (the first overwritten by
the second). -/
def obd_init (rx : Nat → Nat) : ObdInitResult :=
  let wake : List (Bool × Nat) :=
    [(false, 200), (true, 400), (false, 400), (true, 400), (false, 400), (true, 200)]
  let response := rx 0 % 256
  let keyByte1 := rx 1 % 256
  let keyByte2 := rx 2 % 256
  let ackSent := 255 - keyByte2
  let ack2 := rx 4 % 256
  ⟨wake, response, keyByte1, keyByte2, ackSent, ack2, 5⟩

/-- Spec-side definition (from the claim's words, for comparison with the
source trace): the 10 bit levels of one 5-baud frame carrying 0x33 — one
start bit (low), the 8 data bits of 0x33 LSB first, one stop bit (high). -/
def specWakeBits : List Bool :=
  false :: (List.range 8).map (Nat.testBit 0x33) ++ [true]

/-- Spec-side run-length merge: consecutive equal bit levels are held as
one interval, at 200 ms per bit. -/
def rleFrom : Bool → Nat → List Bool → List (Bool × Nat)
  | b, n, [] => [(b, n)]
  | b, n, c :: rest =>
    if c = b then rleFrom b (n + 200) rest else (b, n) :: rleFrom c 200 rest

/-- Spec-side definition of the whole expected wake waveform. -/
def specWakeWaveform : List (Bool × Nat) :=
  match specWakeBits with
  | [] => []
  | b :: rest => rleFrom b 200 rest

/-- A concrete obd_info_t value, used for concrete executions. -/
def info0 : obd_info_t :=
  ⟨[0, 0, 0, 0], 0, 0, 0, 0⟩

/-- A concrete receive stream for obd_init: sync byte 0xAA (not 0x55),
then key bytes 08 08 and two acknowledgment bytes. -/
def rxC2 : Nat → Nat := fun i =>
  [0xAA, 0x08, 0x08, 0xCC, 0xCC].getD i 0

/-- A concrete receive stream under which all four send_cmd calls of one
get_obd_data cycle succeed: every request-byte echo differs from the byte
sent (which, with the inverted test at src/src/obd.c lines 33-61, lets
transmission continue), and each response is well-formed (correct length
byte, destination, source and command echo, then the result bytes and a
trailing checksum byte). -/
def rxAllOk : Nat → Nat := fun i =>
  ([0, 0, 0, 0, 0, 0, 0x45, 0x6A, 0xF1, 0x01, 0x04, 0x63, 0xAA,
    0, 0, 0, 0, 0, 0, 0x45, 0x6A, 0xF1, 0x01, 0x05, 0x7F, 0xBB,
    0, 0, 0, 0, 0, 0, 0x46, 0x6A, 0xF1, 0x01, 0x0C, 0x1A, 0xF0, 0xCC,
    0, 0, 0, 0, 0, 0, 0x45, 0x6A, 0xF1, 0x01, 0x0D, 0x40, 0xDD].getD i 0)

/-! Helper lemmas about the embedding. -/

/-- If the transmission phase falls through a whole byte list, the stream
position advances by exactly one echo per byte sent. -/
theorem txPhase_ok_pos (rx : Nat → Nat) (bs : List Nat) :
    ∀ p, (txPhase rx bs p).ok = true → (txPhase rx bs p).pos = p + bs.length := by
  induction bs with
  | nil => intro p _; simp [txPhase]
  | cons b rest ih =>
    intro p h
    by_cases hc : send_byte b (rx p % 256) = 0
    · simp [txPhase, hc] at h
    · simp only [txPhase, if_neg hc] at h ⊢
      rw [ih (p + 1) h]
      simp only [List.length_cons]
      omega

/-- A request frame is the three header bytes, the command bytes, and one
checksum byte. -/
theorem frameBytes_length (cmd : List Nat) : (frameBytes cmd).length = cmd.length + 4 := by
  simp only [frameBytes, List.length_cons, List.length_append, List.length_map,
    List.length_nil]

/-- When the transmission phase falls through, send_cmd continues into the
response phase at the position the transmission phase reached. -/
theorem sendCmd_of_txOk (cmd : List Nat) (n : Nat) (rx : Nat → Nat)
    (h : (txPhase rx (frameBytes cmd) 0).ok = true) :
    sendCmd cmd n rx =
      ⟨(txPhase rx (frameBytes cmd) 0).tx,
        (sendCmdRx cmd n rx (txPhase rx (frameBytes cmd) 0).pos).1,
        (sendCmdRx cmd n rx (txPhase rx (frameBytes cmd) 0).pos).2⟩ := by
  simp [sendCmd, h]

/-- The response phase returns -1 after consuming exactly one byte when the
16-bit length test at src/src/obd.c line 66 fires. -/
theorem sendCmdRx_reject_length (cmd : List Nat) (n : Nat) (rx : Nat → Nat) (p : Nat)
    (h : (dataLenByte rx p + 65536 - cmd.length % 65536) % 65536 ≠ n % 65536) :
    sendCmdRx cmd n rx p = (p + 1, none) := by
  simp only [sendCmdRx, if_pos h]

/-- The first frame byte is always transmitted before its echo is examined. -/
theorem txPhase_tx_cons (rx : Nat → Nat) (b : Nat) (bs : List Nat) (p : Nat) :
    (txPhase rx (b :: bs) p).tx = b :: (txPhase rx (b :: bs) p).tx.tail := by
  by_cases hc : send_byte b (rx p % 256) = 0
  · simp [txPhase, hc]
  · simp [txPhase, hc]

/-- send_cmd's transmit trace is the transmission phase's trace on every
control path. -/
theorem sendCmd_tx_eq (cmd : List Nat) (n : Nat) (rx : Nat → Nat) :
    (sendCmd cmd n rx).tx = (txPhase rx (frameBytes cmd) 0).tx := by
  simp only [sendCmd]
  split <;> rfl

/-- get_engine_load transmits exactly what its send_cmd call transmits. -/
theorem get_engine_load_tx (junk rx : Nat → Nat) (s : obd_info_t) :
    (get_engine_load junk rx s).tx = (sendCmd [0x01, 0x04] 1 rx).tx := by
  simp only [get_engine_load]
  split <;> rfl

/-! Claim theorems. -/

/-- C1: evaluation at the failing input.  The claim (and the comments at
src/src/obd.c lines 14-15) say send_cmd aborts on an echo MISMATCH and
continues on a match.  The code tests if (!send_byte(...)), and send_byte
returns 0 on a match, so the behaviour is inverted: with every echo equal
to the byte just sent (here 0x68 echoed for 0x68), send_cmd aborts after
the first byte with -1; with every echo different from the byte sent
(here 0x00), it transmits the entire frame. -/
theorem obd_C1_echo_check_inverted :
    ((sendCmd [0x01, 0x0C] 2 (fun _ => 0x68)).tx = [0x68] ∧
      (sendCmd [0x01, 0x0C] 2 (fun _ => 0x68)).result = none ∧
      (sendCmd [0x01, 0x0C] 2 (fun _ => 0x68)).consumed = 1) ∧
    (sendCmd [0x01, 0x0C] 2 (fun _ => 0)).tx = [0x68, 0x6A, 0xF1, 0x01, 0x0C, 0xD0] := by
  decide

/-- C2: evaluation at the failing input.  The claim says a sync byte other
than 0x55 fails the handshake and skips the key-byte exchange.  obd_init
receives the sync byte into response (src/src/obd.c line 197) and never
compares it with anything: with sync byte 0xAA the two key bytes are still
received, the complement acknowledgment is still computed, and all five
receives still happen; the second conjunct shows the key-byte exchange is
performed for every stream whatsoever. -/
theorem obd_C2_sync_byte_unchecked :
    ((obd_init rxC2).response = 0xAA ∧ (obd_init rxC2).response ≠ 0x55 ∧
      (obd_init rxC2).keyByte1 = 0x08 ∧ (obd_init rxC2).keyByte2 = 0x08 ∧
      (obd_init rxC2).ackSent = 0xF7 ∧ (obd_init rxC2).consumed = 5) ∧
    ∀ rx : Nat → Nat, (obd_init rx).keyByte1 = rx 1 % 256 ∧ (obd_init rx).consumed = 5 :=
  ⟨by decide, fun _ => ⟨rfl, rfl⟩⟩

/-- C3 counterexample: for raw engine-load byte A = 255 the stored load is
255 * 100 / 255 = 100, which is not in the claimed interval [0,99]. -/
theorem obd_C3_load_range_counterexample :
    (get_engine_load (fun _ => 255) (fun _ => 0x68) info0).info.load = 100 ∧
    ¬ (get_engine_load (fun _ => 255) (fun _ => 0x68) info0).info.load ≤ 99 := by
  decide

/-- C3 amended: on the path where get_engine_load stores a decoded value,
the stored load is floor(A * 100 / 255) for the raw byte A it decodes, and
it lies in [0,100] (the bound 100 is attained at A = 255, so [0,99] of the
original claim is off by one at the top). -/
theorem obd_C3_load_decode (junk rx : Nat → Nat) (s : obd_info_t)
    (h : (sendCmd [0x01, 0x04] 1 rx).result = none) :
    (get_engine_load junk rx s).info.load = (junk 0 % 256) * 100 / 255 ∧
    (get_engine_load junk rx s).info.load ≤ 100 := by
  have hg : get_engine_load junk rx s
      = ⟨{ s with load := ((junk 0 % 256) * 100 / 255) % 256 }, 0,
          (sendCmd [0x01, 0x04] 1 rx).tx, (sendCmd [0x01, 0x04] 1 rx).consumed⟩ := by
    simp only [get_engine_load, h]
  rw [hg]
  have hj : junk 0 % 256 < 256 := Nat.mod_lt _ (by norm_num)
  have h100 : (junk 0 % 256) * 100 / 255 ≤ 100 := by omega
  have hmod : ((junk 0 % 256) * 100 / 255) % 256 = (junk 0 % 256) * 100 / 255 :=
    Nat.mod_eq_of_lt (by omega)
  refine ⟨hmod, ?_⟩
  show ((junk 0 % 256) * 100 / 255) % 256 ≤ 100
  omega

/-- C3 witness: concrete instance of the amended decode theorem at raw
byte 131, giving floor(131 * 100 / 255) = 51. -/
theorem obd_C3_witness :
    (get_engine_load (fun _ => 131) (fun _ => 0x68) info0).info.load = 51 ∧
    (get_engine_load (fun _ => 131) (fun _ => 0x68) info0).info.load ≤ 100 :=
  obd_C3_load_decode (fun _ => 131) (fun _ => 0x68) info0 (by decide)

/-- C4 counterexample: for raw coolant byte A = 255 the int value
A - 40 = 215 overflows the signed char field, which stores -41, so the
stored temperature is neither A - 40 nor in the upper part of the claimed
interval. -/
theorem obd_C4_temperature_wrap_counterexample :
    (get_engine_coolant_temp (fun _ => 255) (fun _ => 0x68) info0).info.temperature = -41 ∧
    ¬ (get_engine_coolant_temp (fun _ => 255) (fun _ => 0x68) info0).info.temperature
        = (255 : Int) - 40 := by
  decide

/-- C4 amended: on the path where get_engine_coolant_temp stores a decoded
value, the signed char field receives the two's-complement wrap of A - 40;
that equals A - 40 only for A <= 167, and the stored value always lies in
[-128,127] (not in [-40,215]). -/
theorem obd_C4_temperature_decode (junk rx : Nat → Nat) (s : obd_info_t)
    (h : (sendCmd [0x01, 0x05] 1 rx).result = none) :
    (get_engine_coolant_temp junk rx s).info.temperature
        = signedChar ((junk 0 % 256 : Int) - 40) ∧
    (junk 0 % 256 ≤ 167 →
      (get_engine_coolant_temp junk rx s).info.temperature = (junk 0 % 256 : Int) - 40) ∧
    (-128 ≤ (get_engine_coolant_temp junk rx s).info.temperature ∧
      (get_engine_coolant_temp junk rx s).info.temperature ≤ 127) := by
  have hg : get_engine_coolant_temp junk rx s
      = ⟨{ s with temperature := signedChar ((junk 0 % 256 : Int) - 40) }, 0,
          (sendCmd [0x01, 0x05] 1 rx).tx, (sendCmd [0x01, 0x05] 1 rx).consumed⟩ := by
    simp only [get_engine_coolant_temp, h]
  rw [hg]
  have hj : junk 0 % 256 < 256 := Nat.mod_lt _ (by norm_num)
  refine ⟨rfl, ?_, ?_, ?_⟩
  · intro hle
    show signedChar ((junk 0 % 256 : Int) - 40) = (junk 0 % 256 : Int) - 40
    simp only [signedChar]
    omega
  · show -128 ≤ signedChar ((junk 0 % 256 : Int) - 40)
    simp only [signedChar]
    omega
  · show signedChar ((junk 0 % 256 : Int) - 40) ≤ 127
    simp only [signedChar]
    omega

/-- C4 witness: concrete instance of the amended decode theorem at raw
byte 100 (no wrap: 100 <= 167, stored temperature 60). -/
theorem obd_C4_witness :
    (get_engine_coolant_temp (fun _ => 100) (fun _ => 0x68) info0).info.temperature
        = signedChar ((100 % 256 : Int) - 40) ∧
    ((100 : Nat) % 256 ≤ 167 →
      (get_engine_coolant_temp (fun _ => 100) (fun _ => 0x68) info0).info.temperature
        = (100 % 256 : Int) - 40) ∧
    (-128 ≤ (get_engine_coolant_temp (fun _ => 100) (fun _ => 0x68) info0).info.temperature ∧
      (get_engine_coolant_temp (fun _ => 100) (fun _ => 0x68) info0).info.temperature ≤ 127) :=
  obd_C4_temperature_decode (fun _ => 100) (fun _ => 0x68) info0 (by decide)

/-- C5: the request frame for Service-1 PID 0C (command bytes 01 0C,
cmd_len 2) is exactly 68 6A F1 01 0C D0, and on a stream whose echoes all
differ from the bytes sent (which is what lets the inverted echo test fall
through) send_cmd transmits exactly that sequence in order. -/
theorem obd_C5_request_encoding :
    frameBytes [0x01, 0x0C] = [0x68, 0x6A, 0xF1, 0x01, 0x0C, 0xD0] ∧
    (sendCmd [0x01, 0x0C] 2 (fun _ => 0)).tx = [0x68, 0x6A, 0xF1, 0x01, 0x0C, 0xD0] := by
  decide

/-- C6: whenever send_cmd reaches the response phase (the transmission
phase fell through) and the received data_len byte minus 0x42 (as the
unsigned char the code computes) minus cmd_len differs from the declared
result length, send_cmd returns -1 having consumed exactly one response
byte: the address, command-echo and result bytes are never read. -/
theorem obd_C6_length_check_rejects (cmd : List Nat) (result_len : Nat) (rx : Nat → Nat)
    (hok : (txPhase rx (frameBytes cmd) 0).ok = true)
    (hL : cmd.length ≤ 255) (hR : result_len ≤ 255)
    (hne : (dataLenByte rx (cmd.length + 4) : Int) - cmd.length ≠ result_len) :
    (sendCmd cmd result_len rx).result = none ∧
    (sendCmd cmd result_len rx).consumed = cmd.length + 4 + 1 := by
  have hpos : (txPhase rx (frameBytes cmd) 0).pos = cmd.length + 4 := by
    rw [txPhase_ok_pos rx (frameBytes cmd) 0 hok, frameBytes_length]
    omega
  have hd : dataLenByte rx (cmd.length + 4) < 256 := Nat.mod_lt _ (by norm_num)
  have hcond : (dataLenByte rx (cmd.length + 4) + 65536 - cmd.length % 65536) % 65536
      ≠ result_len % 65536 := by
    omega
  rw [sendCmd_of_txOk cmd result_len rx hok, hpos,
    sendCmdRx_reject_length cmd result_len rx _ hcond]
  exact ⟨rfl, rfl⟩

/-- C6 witness: request 01 0C with expected result length 2 on the
all-zero stream: every echo differs so transmission falls through, the
data_len byte 0x00 gives data_len 190, 190 - 2 is not 2, and send_cmd
rejects after consuming exactly the 6 echoes plus 1 response byte. -/
theorem obd_C6_witness :
    (sendCmd [0x01, 0x0C] 2 (fun _ => 0)).result = none ∧
    (sendCmd [0x01, 0x0C] 2 (fun _ => 0)).consumed = 7 :=
  obd_C6_length_check_rejects [0x01, 0x0C] 2 (fun _ => 0) (by decide) (by decide) (by decide)
    (by decide)

/-- C7: the PD1 trace of the 5-baud wake byte in obd_init equals, interval
for interval, the run-length merge (200 ms per bit, consecutive equal bits
held as one interval) of one start bit (low), the 8 data bits of 0x33 LSB
first, and one stop bit (high). -/
theorem obd_C7_wake_waveform (rx : Nat → Nat) :
    (obd_init rx).wake = specWakeWaveform := rfl

/-- C8 counterexample: a run in which send_cmd reports an error (echo of
the first byte matches, so the inverted test makes send_cmd return -1
having never written the result buffer), yet get_engine_load returns 0
(success) and stores the decode of the uninitialized byte (7 gives 2):
the reading is not marked invalid in any way, and obd_info_t carries no
validity flag that could mark it. -/
theorem obd_C8_failure_counterexample :
    (sendCmd [0x01, 0x04] 1 (fun _ => 0x68)).result = none ∧
    (get_engine_load (fun _ => 7) (fun _ => 0x68) info0).ret = 0 ∧
    (get_engine_load (fun _ => 7) (fun _ => 0x68) info0).info.load = 2 := by
  decide

/-- C8 amended: whenever send_cmd reports an error for the engine-load
request, get_engine_load returns 0 (the success code) and the whole
resulting obd_info is the old one with load overwritten by the decode of
the uninitialized buffer byte — no validity flag exists and nothing else
records the failure; the zeroing path (load := 0, return -1) is taken
exactly when send_cmd succeeds. -/
theorem obd_C8_error_path_stores_junk (junk rx : Nat → Nat) (s : obd_info_t)
    (h : (sendCmd [0x01, 0x04] 1 rx).result = none) :
    (get_engine_load junk rx s).ret = 0 ∧
    (get_engine_load junk rx s).info
      = { s with load := ((junk 0 % 256) * 100 / 255) % 256 } := by
  have hg : get_engine_load junk rx s
      = ⟨{ s with load := ((junk 0 % 256) * 100 / 255) % 256 }, 0,
          (sendCmd [0x01, 0x04] 1 rx).tx, (sendCmd [0x01, 0x04] 1 rx).consumed⟩ := by
    simp only [get_engine_load, h]
  rw [hg]
  exact ⟨rfl, rfl⟩

/-- C8 witness: concrete instance with uninitialized byte 51: send_cmd
errors, get_engine_load reports success and stores 20. -/
theorem obd_C8_witness :
    (get_engine_load (fun _ => 51) (fun _ => 0x68) info0).ret = 0 ∧
    (get_engine_load (fun _ => 51) (fun _ => 0x68) info0).info
      = { info0 with load := 20 } :=
  obd_C8_error_path_stores_junk (fun _ => 51) (fun _ => 0x68) info0 (by decide)

/-- C9 counterexample: a concrete get_obd_data step transmits (its first
transmitted byte is the 0x68 length byte of the engine-load request) and
returns 0; the function has no clock input and no session-age state, so
this same step is what runs however much time has elapsed — there is no
path that reports SessionExpired instead of transmitting. -/
theorem obd_C9_no_expiry_counterexample :
    (get_obd_data (fun _ => 0) (fun _ => 0) (fun _ => 0) (fun _ => 0) (fun _ => 0) info0).ret
      = 0 ∧
    (get_obd_data (fun _ => 0) (fun _ => 0) (fun _ => 0) (fun _ => 0) (fun _ => 0)
      info0).tx.head? = some 0x68 := by
  decide

/-- C9 amended: every get_obd_data step, on every stream and state,
returns 0 and begins by transmitting the 0x68 length byte of the first
parameter request: the polling step is unconditional, performs no
keep-alive/elapsed-time check, and has no SessionExpired (or any error)
report. -/
theorem obd_C9_poll_step_unconditional (j1 j2 j3 j4 rx : Nat → Nat) (s : obd_info_t) :
    (get_obd_data j1 j2 j3 j4 rx s).ret = 0 ∧
    (get_obd_data j1 j2 j3 j4 rx s).tx.head? = some 0x68 := by
  refine ⟨rfl, ?_⟩
  obtain ⟨l, hl⟩ : ∃ l, (get_obd_data j1 j2 j3 j4 rx s).tx = (get_engine_load j1 rx s).tx ++ l :=
    ⟨_, rfl⟩
  rw [hl, get_engine_load_tx, sendCmd_tx_eq,
    (by decide : frameBytes [0x01, 0x04] = 0x68 :: [0x6A, 0xF1, 0x01, 0x04, 0xC8]),
    txPhase_tx_cons]
  rfl

/-- C10: get_obd_data returns 0 for every junk, stream and state, and in
particular returns 0 on a stream where every one of the four parameter
reads returned -1 (shown for the first read): the individual return
values are computed and dropped, so the caller cannot distinguish any
outcome of the four reads. -/
theorem obd_C10_poll_returns_zero :
    (∀ (j1 j2 j3 j4 rx : Nat → Nat) (s : obd_info_t),
      (get_obd_data j1 j2 j3 j4 rx s).ret = 0) ∧
    (get_engine_load (fun _ => 0) rxAllOk info0).ret = -1 ∧
    (get_obd_data (fun _ => 0) (fun _ => 0) (fun _ => 0) (fun _ => 0) rxAllOk info0).ret = 0 :=
  ⟨fun _ _ _ _ _ _ => rfl, by decide, rfl⟩
